import Mathlib

/-!
Shallow embedding of the Sol-Ark Home Assistant integration
(custom_components/solark/api.py), covering the payload normalizer
`parse_plant_data` and the error paths of the low-level request helper
`_request`.

JSON values handed to `parse_plant_data` (the decoded `data` field of the
vendor response) are modelled by `JsonVal`; Python floats are modelled by
rationals (the arithmetic performed by the code is exact on the inputs of
interest, and no claim depends on rounding).  A Python expression that
raises is modelled by `Option`: `none` is a raised exception.
-/

namespace SolArk

/-- A decoded JSON value, as produced by `resp.json()` in api.py and passed
to `parse_plant_data`.  `obj` keeps insertion order, matching Python dicts;
keys of a decoded JSON object are unique. -/
inductive JsonVal where
  | null : JsonVal
  | bool (b : Bool) : JsonVal
  | num (q : ℚ) : JsonVal
  | str (s : String) : JsonVal
  | arr (items : List JsonVal) : JsonVal
  | obj (fields : List (String × JsonVal)) : JsonVal

/-- Python `d.get(k)`: first binding wins (dict keys are unique anyway). -/
def dictGet (kvs : List (String × JsonVal)) (k : String) : Option JsonVal :=
  (kvs.find? (fun p => p.1 == k)).map (fun p => p.2)

/-- Python `d.get(k, default)`. -/
def dictGetD (kvs : List (String × JsonVal)) (k : String) (d : JsonVal) : JsonVal :=
  (dictGet kvs k).getD d

def digitsToNat (l : List Char) : Nat :=
  l.foldl (fun a c => a * 10 + (c.toNat - 48)) 0

/-- Helper for `parseFloatString`: an unsigned decimal literal
`digits[.digits]`.  (Scientific notation and the special strings
inf/nan accepted by Python are not modelled; no claim exercises them.) -/
def parseUnsigned (cs : List Char) : Option ℚ :=
  let intPart := cs.takeWhile Char.isDigit
  let rest := cs.dropWhile Char.isDigit
  match rest with
  | [] => if intPart.isEmpty then none else some (digitsToNat intPart)
  | '.' :: rest2 =>
    let fracPart := rest2.takeWhile Char.isDigit
    let rest3 := rest2.dropWhile Char.isDigit
    if rest3.isEmpty && (!intPart.isEmpty || !fracPart.isEmpty) then
      some ((digitsToNat intPart : ℚ) + (digitsToNat fracPart : ℚ) / (10 ^ fracPart.length))
    else none
  | _ => none

/-- Python `float(s)` on a string: strips whitespace, optional sign,
decimal literal; raises ValueError (here `none`) otherwise. -/
def parseFloatString (s : String) : Option ℚ :=
  match s.trim.toList with
  | '+' :: rest => parseUnsigned rest
  | '-' :: rest => (parseUnsigned rest).map Neg.neg
  | cs => parseUnsigned cs

/-- Python `float(v)` on a decoded JSON value: numbers pass through, bools
are their int value, numeric strings are parsed; `None`, lists and dicts
raise TypeError, non-numeric strings raise ValueError — both modelled as
`none` (these are exactly the exception types caught in
`parse_plant_data`). -/
def pyFloat : JsonVal → Option ℚ
  | JsonVal.num q => some q
  | JsonVal.bool b => some (if b then 1 else 0)
  | JsonVal.str s => parseFloatString s
  | JsonVal.null => none
  | JsonVal.arr _ => none
  | JsonVal.obj _ => none

/-- A value stored in the sensors dict built by `parse_plant_data`: either
a Python float produced by `float(...)`, or the raw passthrough value used
for `last_error`. -/
inductive SensorValue where
  | num (q : ℚ) : SensorValue
  | raw (v : JsonVal) : SensorValue

/-- The seven numeric assignments of `parse_plant_data`, in program order:
canonical sensor key paired with the raw vendor field read for it
(api.py lines 411-417). -/
def FIELD_MAP : List (String × String) :=
  [("pv_power", "pvPower"),
   ("load_power", "loadPower"),
   ("grid_import_power", "gridImportPower"),
   ("grid_export_power", "gridExportPower"),
   ("battery_power", "battPower"),
   ("battery_soc", "battSoc"),
   ("energy_today", "energyToday")]

/-- One numeric assignment: `float(data.get(alias, 0))`. -/
def coerceField (kvs : List (String × JsonVal)) (a : String) : Option ℚ :=
  pyFloat (dictGetD kvs a (JsonVal.num 0))

/-- The final assignment of the try block:
`sensors["last_error"] = data.get("lastError", "None")` (a passthrough,
api.py line 418). -/
def lastErrorEntry (kvs : List (String × JsonVal)) : String × SensorValue :=
  ("last_error", SensorValue.raw (dictGetD kvs "lastError" (JsonVal.str "None")))

/-- The try block of `parse_plant_data` (api.py lines 410-420): the numeric
assignments run in order; the first one whose `float(...)` raises
TypeError/ValueError aborts the block (the exception is caught and only the
entries already assigned are kept); if all seven succeed, the `last_error`
passthrough is assigned as well. -/
def assignFields (kvs : List (String × JsonVal)) :
    List (String × String) → List (String × SensorValue)
  | [] => [lastErrorEntry kvs]
  | (canon, a) :: rest =>
    match coerceField kvs a with
    | some q => (canon, SensorValue.num q) :: assignFields kvs rest
    | none => []

/-- `SolArkCloudAPI.parse_plant_data` (api.py lines 401-423): returns `{}`
for a non-dict argument, otherwise runs the try block over the seven
numeric fields and the `last_error` passthrough. -/
def parse_plant_data (data : JsonVal) : List (String × SensorValue) :=
  match data with
  | JsonVal.obj kvs => assignFields kvs FIELD_MAP
  | _ => []

/-- Lookup of a canonical key in the produced sensors dict. -/
def getSensor (sensors : List (String × SensorValue)) (k : String) :
    Option SensorValue :=
  (sensors.find? (fun p => p.1 == k)).map (fun p => p.2)

/-- True exactly for dict arguments: the `isinstance(data, dict)` test at
api.py line 403. -/
def isDict : JsonVal → Bool
  | JsonVal.obj _ => true
  | _ => false

/-- The raw vendor field names `parse_plant_data` reads (api.py lines
411-418): the seven numeric sources and the `lastError` passthrough. -/
def RECOGNIZED : List String :=
  ["pvPower", "loadPower", "gridImportPower", "gridExportPower",
   "battPower", "battSoc", "energyToday", "lastError"]

/-- The distinguished error type `SolArkCloudAPIError` (api.py lines
39-40); it carries its message string as the exception argument. -/
structure SolArkCloudAPIError where
  message : String

/-- Rendering of a decoded JSON value inside a Python f-string (str()).
Numeric and container rendering is approximate; the claims only depend on
which error is raised and on the endpoint appearing in the message. -/
def renderVal : JsonVal → String
  | JsonVal.null => "None"
  | JsonVal.bool b => if b then "True" else "False"
  | JsonVal.num q => toString q
  | JsonVal.str s => s
  | JsonVal.arr _ => "[json array]"
  | JsonVal.obj _ => "[json object]"

/-- The observable outcome of the HTTP exchange inside `_request`
(api.py lines 130-158): the response status, its body text, and the result
of `resp.json()` (`none` when the body is not parseable JSON). -/
structure HttpResponse where
  status : Nat
  bodyText : String
  json : Option JsonVal

/-- How the awaited HTTP exchange of `_request` can end: with a response,
with `asyncio.TimeoutError`, or with an `aiohttp.ClientError`. -/
inductive RequestOutcome where
  | response (r : HttpResponse) : RequestOutcome
  | timeout : RequestOutcome
  | clientError (msg : String) : RequestOutcome

/-- The test `code not in (0, "0", None)` at api.py line 167, negated,
where `code = result.get("code")`.  Python `in` compares with `==`, under
which `0` also equals `0.0` and `False`. -/
def codeOk : Option JsonVal → Bool
  | none => true
  | some (JsonVal.num q) => q == 0
  | some (JsonVal.str s) => s == "0"
  | some JsonVal.null => true
  | some (JsonVal.bool b) => !b
  | some (JsonVal.arr _) => false
  | some (JsonVal.obj _) => false

/-- `SolArkCloudAPI._request` (api.py lines 100-173), restricted to its
error handling: given the endpoint and the outcome of the HTTP exchange it
either returns the decoded JSON or raises `SolArkCloudAPIError`
(modelled as `Except.error`).  `resp.raise_for_status()` raises exactly
for status 400 and above (aiohttp: "if the response status is 400 or
higher"); that error, the invalid-JSON error, the timeout, the client
error and the embedded API error-code check each raise with the endpoint
interpolated into the message.  The auth step (`_ensure_token`) precedes
the exchange and is outside this model. -/
def request_result (endpoint : String) (o : RequestOutcome) :
    Except SolArkCloudAPIError JsonVal :=
  match o with
  | RequestOutcome.timeout => Except.error ⟨"Timeout for " ++ endpoint⟩
  | RequestOutcome.clientError m =>
    Except.error ⟨"Client error for " ++ endpoint ++ ": " ++ m⟩
  | RequestOutcome.response r =>
    if 400 ≤ r.status then
      Except.error ⟨"HTTP " ++ toString r.status ++ " for " ++ endpoint ++
        ": " ++ r.bodyText.take 500⟩
    else
      match r.json with
      | none =>
        Except.error ⟨"Invalid JSON response from " ++ endpoint ++ ": " ++
          r.bodyText.take 200⟩
      | some (JsonVal.obj kvs) =>
        if codeOk (dictGet kvs "code") then Except.ok (JsonVal.obj kvs)
        else
          Except.error ⟨"API error for " ++ endpoint ++ ": " ++
            renderVal (dictGetD kvs "msg" (JsonVal.str "Unknown error")) ++
            " (code=" ++ renderVal (dictGetD kvs "code" JsonVal.null) ++ ")"⟩
      | some j => Except.ok j

/-- Whether a decoded JSON body carries an embedded API error code: only a
dict body is inspected (api.py line 165). -/
def jsonCodeOk : JsonVal → Bool
  | JsonVal.obj kvs => codeOk (dictGet kvs "code")
  | _ => true

/-- The failure taxonomy of `_request`: timeout, client error, HTTP status
400 or above, unparseable JSON body, or an embedded API error code. -/
def isRequestFailure : RequestOutcome → Bool
  | RequestOutcome.timeout => true
  | RequestOutcome.clientError _ => true
  | RequestOutcome.response r =>
    decide (400 ≤ r.status) ||
      (match r.json with
       | none => true
       | some j => !jsonCodeOk j)

/-!  Helper lemmas shared by the claim theorems. -/

/-- Closed form of the try block: it produces the numeric entries for the
longest prefix of fields whose coercion succeeds, followed by the
`last_error` passthrough exactly when every coercion succeeded. -/
theorem assignFields_eq (kvs : List (String × JsonVal))
    (fields : List (String × String)) :
    assignFields kvs fields =
      (fields.takeWhile (fun p => (coerceField kvs p.2).isSome)).map
        (fun p => (p.1, SensorValue.num ((coerceField kvs p.2).getD 0)))
      ++ (if fields.all (fun p => (coerceField kvs p.2).isSome)
          then [lastErrorEntry kvs] else []) := by
  induction fields with
  | nil => simp [assignFields]
  | cons hd tl ih =>
    obtain ⟨c, a⟩ := hd
    cases h : coerceField kvs a with
    | some q =>
      simp [assignFields, h, List.takeWhile_cons, ih]
      rw [h]
      rw [Option.isSome_some, Bool.true_and]
    | none => simp [assignFields, h, List.takeWhile_cons]

/-- If every field of the list carrying canonical key `k` has a failing
coercion and `k` is not `last_error`, then `k` is absent from the try
block's result. -/
theorem getSensor_assignFields_eq_none (kvs : List (String × JsonVal))
    (fields : List (String × String)) (k : String)
    (hk : k ≠ "last_error")
    (hfield : ∀ q ∈ fields, q.1 = k → coerceField kvs q.2 = none) :
    getSensor (assignFields kvs fields) k = none := by
  induction fields with
  | nil =>
    have hne : ("last_error" == k) = false := beq_eq_false_iff_ne.mpr (Ne.symm hk)
    simp [assignFields, getSensor, lastErrorEntry, List.find?, hne]
  | cons hd tl ih =>
    obtain ⟨c, a⟩ := hd
    cases h : coerceField kvs a with
    | none => simp [assignFields, h, getSensor]
    | some q =>
      have hck : c ≠ k := by
        intro hc
        have hgone := hfield (c, a) (List.mem_cons_self _ _) hc
        rw [h] at hgone
        exact Option.noConfusion hgone
      have hckb : (c == k) = false := beq_eq_false_iff_ne.mpr hck
      have step : assignFields kvs ((c, a) :: tl) =
          (c, SensorValue.num q) :: assignFields kvs tl := by
        simp [assignFields, h]
      have ih2 := ih (fun p hp hpk => hfield p (List.mem_cons_of_mem _ hp) hpk)
      rw [step]
      simpa [getSensor, List.find?, hckb] using ih2

/-- If some field of the list has a failing coercion and no field carries
the key `last_error`, the try block never reaches the `last_error`
assignment. -/
theorem getSensor_lastError_eq_none (kvs : List (String × JsonVal))
    (fields : List (String × String))
    (hex : ∃ q ∈ fields, coerceField kvs q.2 = none)
    (hnames : ∀ q ∈ fields, q.1 ≠ "last_error") :
    getSensor (assignFields kvs fields) "last_error" = none := by
  induction fields with
  | nil =>
    obtain ⟨q, hq, -⟩ := hex
    cases hq
  | cons hd tl ih =>
    obtain ⟨c, a⟩ := hd
    cases h : coerceField kvs a with
    | none => simp [assignFields, h, getSensor]
    | some q =>
      have step : assignFields kvs ((c, a) :: tl) =
          (c, SensorValue.num q) :: assignFields kvs tl := by
        simp [assignFields, h]
      have hcb : (c == "last_error") = false :=
        beq_eq_false_iff_ne.mpr (hnames (c, a) (List.mem_cons_self _ _))
      have hex2 : ∃ p ∈ tl, coerceField kvs p.2 = none := by
        obtain ⟨p, hp, hpf⟩ := hex
        rcases List.mem_cons.mp hp with heq | hp2
        · subst heq
          simp [h] at hpf
        · exact ⟨p, hp2, hpf⟩
      have ih2 := ih hex2 (fun p hp => hnames p (List.mem_cons_of_mem _ hp))
      rw [step]
      simpa [getSensor, List.find?, hcb] using ih2

/-!  The claims. -/

/-- Claim C1, counterexample: on the empty payload — a mapping containing
none of the recognized vendor field names — `parse_plant_data` does not
return an empty SensorSet; it returns all eight canonical keys, each
numeric one bound to 0.0. -/
theorem c1_counterexample :
    parse_plant_data (JsonVal.obj []) =
      [("pv_power", SensorValue.num 0),
       ("load_power", SensorValue.num 0),
       ("grid_import_power", SensorValue.num 0),
       ("grid_export_power", SensorValue.num 0),
       ("battery_power", SensorValue.num 0),
       ("battery_soc", SensorValue.num 0),
       ("energy_today", SensorValue.num 0),
       ("last_error", SensorValue.raw (JsonVal.str "None"))] := rfl

/-- Claim C1, amended: for every mapping containing none of the recognized
vendor field names, `parse_plant_data` returns the full default SensorSet —
all seven numeric canonical keys present with value 0.0 and `last_error`
present as the string "None".  An absent input field yields a default
entry, never an absent output key. -/
theorem c1_unrecognized_input_gives_full_defaults
    (kvs : List (String × JsonVal))
    (h : RECOGNIZED.all (fun a => (dictGet kvs a).isNone) = true) :
    parse_plant_data (JsonVal.obj kvs) =
      [("pv_power", SensorValue.num 0),
       ("load_power", SensorValue.num 0),
       ("grid_import_power", SensorValue.num 0),
       ("grid_export_power", SensorValue.num 0),
       ("battery_power", SensorValue.num 0),
       ("battery_soc", SensorValue.num 0),
       ("energy_today", SensorValue.num 0),
       ("last_error", SensorValue.raw (JsonVal.str "None"))] := by
  simp only [RECOGNIZED, List.all_cons, List.all_nil, Bool.and_eq_true,
    Option.isNone_iff_eq_none, Bool.and_true] at h
  obtain ⟨h1, h2, h3, h4, h5, h6, h7, h8⟩ := h
  show assignFields kvs FIELD_MAP = _
  simp [FIELD_MAP, assignFields, coerceField, dictGetD, pyFloat,
    lastErrorEntry, h1, h2, h3, h4, h5, h6, h7, h8]

/-- Claim C1, witness: a payload with only the unrecognized key `meterA`
satisfies the hypothesis and produces the full default SensorSet. -/
theorem c1_witness :
    RECOGNIZED.all
      (fun a => (dictGet [("meterA", JsonVal.num 20)] a).isNone) = true ∧
    parse_plant_data (JsonVal.obj [("meterA", JsonVal.num 20)]) =
      [("pv_power", SensorValue.num 0),
       ("load_power", SensorValue.num 0),
       ("grid_import_power", SensorValue.num 0),
       ("grid_export_power", SensorValue.num 0),
       ("battery_power", SensorValue.num 0),
       ("battery_soc", SensorValue.num 0),
       ("energy_today", SensorValue.num 0),
       ("last_error", SensorValue.raw (JsonVal.str "None"))] :=
  ⟨rfl, c1_unrecognized_input_gives_full_defaults _ rfl⟩

/-- Claim C2, counterexample: with `loadPower` bound to JSON null —
`float(None)` raises TypeError — the malformed field does not degrade to
0.0 (its key is simply absent), and the failure is not independent: every
canonical key assigned after it (grid, battery, energy, last_error) is
missing as well.  Only the already-assigned `pv_power` entry survives. -/
theorem c2_counterexample :
    parse_plant_data (JsonVal.obj [("loadPower", JsonVal.null)]) =
      [("pv_power", SensorValue.num 0)] := rfl

/-- Claim C2, amended: `parse_plant_data` never raises (the model is a
total function: TypeError/ValueError from `float` are caught), but an
unparsable numeric field does not degrade to 0.0 independently — the first
failing assignment aborts the try block, so the failing field's canonical
key is absent from the result and so is `last_error` (assigned last, hence
lost whenever any numeric field fails). -/
theorem c2_unparsable_field_aborts
    (kvs : List (String × JsonVal)) (p : String × String)
    (hmem : p ∈ FIELD_MAP) (hfail : coerceField kvs p.2 = none) :
    getSensor (parse_plant_data (JsonVal.obj kvs)) p.1 = none ∧
    getSensor (parse_plant_data (JsonVal.obj kvs)) "last_error" = none := by
  have hmem2 : p ∈
      [(("pv_power" : String), ("pvPower" : String)),
       ("load_power", "loadPower"),
       ("grid_import_power", "gridImportPower"),
       ("grid_export_power", "gridExportPower"),
       ("battery_power", "battPower"),
       ("battery_soc", "battSoc"),
       ("energy_today", "energyToday")] := hmem
  have hk : p.1 ≠ "last_error" := by
    fin_cases hmem2 <;> decide
  have hfield : ∀ q ∈ FIELD_MAP, q.1 = p.1 → coerceField kvs q.2 = none := by
    intro q hq hqk
    have hq2 : q ∈
        [(("pv_power" : String), ("pvPower" : String)),
         ("load_power", "loadPower"),
         ("grid_import_power", "gridImportPower"),
         ("grid_export_power", "gridExportPower"),
         ("battery_power", "battPower"),
         ("battery_soc", "battSoc"),
         ("energy_today", "energyToday")] := hq
    have hqp : q = p := by
      fin_cases hmem2 <;> fin_cases hq2 <;>
        first
        | rfl
        | exact absurd hqk (by decide)
    rw [hqp]
    exact hfail
  have hnames : ∀ q ∈ FIELD_MAP, q.1 ≠ "last_error" := by
    intro q hq
    have hq2 : q ∈
        [(("pv_power" : String), ("pvPower" : String)),
         ("load_power", "loadPower"),
         ("grid_import_power", "gridImportPower"),
         ("grid_export_power", "gridExportPower"),
         ("battery_power", "battPower"),
         ("battery_soc", "battSoc"),
         ("energy_today", "energyToday")] := hq
    fin_cases hq2 <;> decide
  exact ⟨getSensor_assignFields_eq_none kvs FIELD_MAP p.1 hk hfield,
    getSensor_lastError_eq_none kvs FIELD_MAP ⟨p, hmem, hfail⟩ hnames⟩

/-- Claim C2, witness: at the payload binding `loadPower` to null, the
failing field `load_power` and the later `last_error` are both absent. -/
theorem c2_witness :
    ("load_power", "loadPower") ∈ FIELD_MAP ∧
    coerceField [("loadPower", JsonVal.null)] "loadPower" = none ∧
    getSensor (parse_plant_data (JsonVal.obj [("loadPower", JsonVal.null)]))
      "load_power" = none ∧
    getSensor (parse_plant_data (JsonVal.obj [("loadPower", JsonVal.null)]))
      "last_error" = none :=
  ⟨by simp [FIELD_MAP], rfl,
    (c2_unparsable_field_aborts [("loadPower", JsonVal.null)]
      ("load_power", "loadPower") (by simp [FIELD_MAP]) rfl).1,
    (c2_unparsable_field_aborts [("loadPower", JsonVal.null)]
      ("load_power", "loadPower") (by simp [FIELD_MAP]) rfl).2⟩

/-- Claim C3, counterexample: on the payload with only `volt1=10` and
`current1=2`, the output has no `pv_string_1_power` key at all and binds
`pv_power` to 0.0, not to the derived 20.0 the claim expects. -/
theorem c3_counterexample :
    getSensor (parse_plant_data (JsonVal.obj
      [("volt1", JsonVal.num 10), ("current1", JsonVal.num 2)]))
      "pv_string_1_power" = none ∧
    getSensor (parse_plant_data (JsonVal.obj
      [("volt1", JsonVal.num 10), ("current1", JsonVal.num 2)]))
      "pv_power" = some (SensorValue.num 0) := ⟨rfl, rfl⟩

/-- Claim C3, amended: there is no MPPT fallback derivation — the
`volt{i}`/`current{i}` fields are ignored.  On the payload with only
`volt1=10` and `current1=2` the output binds `pv_power` to the default 0.0
and contains neither a `pv_string_1_power` nor a `pv_string_2_power` key;
the whole payload is treated like an empty one. -/
theorem c3_mppt_fields_ignored :
    getSensor (parse_plant_data (JsonVal.obj
      [("volt1", JsonVal.num 10), ("current1", JsonVal.num 2)]))
      "pv_power" = some (SensorValue.num 0) ∧
    getSensor (parse_plant_data (JsonVal.obj
      [("volt1", JsonVal.num 10), ("current1", JsonVal.num 2)]))
      "pv_string_2_power" = none ∧
    parse_plant_data (JsonVal.obj
      [("volt1", JsonVal.num 10), ("current1", JsonVal.num 2)]) =
      parse_plant_data (JsonVal.obj []) := ⟨rfl, rfl, rfl⟩

/-- Claim C4, counterexample: on the payload `gridImportPower=100,
gridExportPower=30, meterA=20, meterB=20, meterC=20` the output has no
`grid_power` key at all (the claim expects 70.0) and no `grid_meter_a`
key either. -/
theorem c4_counterexample :
    getSensor (parse_plant_data (JsonVal.obj
      [("gridImportPower", JsonVal.num 100), ("gridExportPower", JsonVal.num 30),
       ("meterA", JsonVal.num 20), ("meterB", JsonVal.num 20),
       ("meterC", JsonVal.num 20)])) "grid_power" = none ∧
    getSensor (parse_plant_data (JsonVal.obj
      [("gridImportPower", JsonVal.num 100), ("gridExportPower", JsonVal.num 30),
       ("meterA", JsonVal.num 20), ("meterB", JsonVal.num 20),
       ("meterC", JsonVal.num 20)])) "grid_meter_a" = none := ⟨rfl, rfl⟩

/-- Claim C4, amended: there is no `grid_power` derivation and no meter
passthrough.  On that payload the output binds `grid_import_power` to 100.0
and `grid_export_power` to 30.0 directly, and contains no `grid_power`,
`grid_meter_a`, `grid_meter_b` or `grid_meter_c` key; the meter fields are
ignored entirely. -/
theorem c4_no_grid_power_derivation :
    getSensor (parse_plant_data (JsonVal.obj
      [("gridImportPower", JsonVal.num 100), ("gridExportPower", JsonVal.num 30),
       ("meterA", JsonVal.num 20), ("meterB", JsonVal.num 20),
       ("meterC", JsonVal.num 20)])) "grid_import_power" =
      some (SensorValue.num 100) ∧
    getSensor (parse_plant_data (JsonVal.obj
      [("gridImportPower", JsonVal.num 100), ("gridExportPower", JsonVal.num 30),
       ("meterA", JsonVal.num 20), ("meterB", JsonVal.num 20),
       ("meterC", JsonVal.num 20)])) "grid_export_power" =
      some (SensorValue.num 30) ∧
    getSensor (parse_plant_data (JsonVal.obj
      [("gridImportPower", JsonVal.num 100), ("gridExportPower", JsonVal.num 30),
       ("meterA", JsonVal.num 20), ("meterB", JsonVal.num 20),
       ("meterC", JsonVal.num 20)])) "grid_meter_b" = none ∧
    getSensor (parse_plant_data (JsonVal.obj
      [("gridImportPower", JsonVal.num 100), ("gridExportPower", JsonVal.num 30),
       ("meterA", JsonVal.num 20), ("meterB", JsonVal.num 20),
       ("meterC", JsonVal.num 20)])) "grid_meter_c" = none :=
  ⟨rfl, rfl, rfl, rfl⟩

/-- Claim C5, counterexample: on the payload `curCap=50, batteryCap=0`
(no `battSoc` field) the output does contain a `battery_soc` key — bound to
the default 0.0 — where the claim requires the key to be absent. -/
theorem c5_counterexample :
    getSensor (parse_plant_data (JsonVal.obj
      [("curCap", JsonVal.num 50), ("batteryCap", JsonVal.num 0)]))
      "battery_soc" = some (SensorValue.num 0) := rfl

/-- Claim C5, amended: there is no SOC derivation and hence no division to
guard — `curCap` and `batteryCap` are ignored.  On that payload the output
binds `battery_soc` to the `battSoc` default 0.0 (so no infinity or NaN can
arise), and the payload is treated exactly like an empty one. -/
theorem c5_soc_capacity_fields_ignored :
    getSensor (parse_plant_data (JsonVal.obj
      [("curCap", JsonVal.num 50), ("batteryCap", JsonVal.num 0)]))
      "battery_soc" = some (SensorValue.num 0) ∧
    parse_plant_data (JsonVal.obj
      [("curCap", JsonVal.num 50), ("batteryCap", JsonVal.num 0)]) =
      parse_plant_data (JsonVal.obj []) := ⟨rfl, rfl⟩

/-- Claim C6, counterexample: on the payload `inverterOutputVoltage=200,
curCurrent=10` (no `pf`, no `loadPower`) the output binds `load_power` to
the default 0.0, not to the derived 2000.0 the claim expects. -/
theorem c6_counterexample :
    getSensor (parse_plant_data (JsonVal.obj
      [("inverterOutputVoltage", JsonVal.num 200),
       ("curCurrent", JsonVal.num 10)])) "load_power" =
      some (SensorValue.num 0) := rfl

/-- Claim C6, amended: there is no load-power derivation and no
power-factor handling — `inverterOutputVoltage`, `curCurrent` and `pf` are
ignored.  On that payload the output binds `load_power` to the `loadPower`
default 0.0, contains no `inverter_output_voltage` or
`inverter_output_current` key, and the payload is treated exactly like an
empty one. -/
theorem c6_load_power_fields_ignored :
    getSensor (parse_plant_data (JsonVal.obj
      [("inverterOutputVoltage", JsonVal.num 200),
       ("curCurrent", JsonVal.num 10)])) "inverter_output_voltage" = none ∧
    getSensor (parse_plant_data (JsonVal.obj
      [("inverterOutputVoltage", JsonVal.num 200),
       ("curCurrent", JsonVal.num 10)])) "inverter_output_current" = none ∧
    parse_plant_data (JsonVal.obj
      [("inverterOutputVoltage", JsonVal.num 200),
       ("curCurrent", JsonVal.num 10)]) =
      parse_plant_data (JsonVal.obj []) := ⟨rfl, rfl, rfl⟩

/-- Claim C7, counterexample: on the payload with both `pvPower=500` and
`volt1=10, current1=2`, no per-string key `pv_string_1_power` is produced
(the claim expects the MPPT sum to still populate the per-string keys). -/
theorem c7_counterexample :
    getSensor (parse_plant_data (JsonVal.obj
      [("pvPower", JsonVal.num 500), ("volt1", JsonVal.num 10),
       ("current1", JsonVal.num 2)])) "pv_string_1_power" = none := rfl

/-- Claim C7, amended: the direct field is the only source — on that
payload the output binds `pv_power` to 500.0 (so the direct field does
"win" trivially), but no MPPT computation happens at all: neither
`pv_string_1_power` nor `pv_string_2_power` is produced. -/
theorem c7_direct_field_only_source :
    getSensor (parse_plant_data (JsonVal.obj
      [("pvPower", JsonVal.num 500), ("volt1", JsonVal.num 10),
       ("current1", JsonVal.num 2)])) "pv_power" =
      some (SensorValue.num 500) ∧
    getSensor (parse_plant_data (JsonVal.obj
      [("pvPower", JsonVal.num 500), ("volt1", JsonVal.num 10),
       ("current1", JsonVal.num 2)])) "pv_string_2_power" = none := ⟨rfl, rfl⟩

/-- Claim C8: for every value that is not a mapping, `parse_plant_data`
returns the empty mapping (the `isinstance(data, dict)` guard at api.py
line 403) rather than raising. -/
theorem c8_nondict_returns_empty (v : JsonVal) (h : isDict v = false) :
    parse_plant_data v = [] := by
  cases v <;> simp_all [isDict, parse_plant_data]

/-- Claim C8, witness: a string argument is not a mapping and yields `{}`
(here: the empty association list). -/
theorem c8_witness :
    isDict (JsonVal.str "not a mapping") = false ∧
    parse_plant_data (JsonVal.str "not a mapping") = [] :=
  ⟨rfl, c8_nondict_returns_empty _ rfl⟩

/-- Claim C9, counterexample: a non-2xx HTTP status is not always raised —
`resp.raise_for_status()` only raises for status 400 and above, so a 304
response whose body is valid JSON with no embedded error code is returned
successfully instead of raising `SolArkCloudAPIError`. -/
theorem c9_counterexample :
    request_result "/api/v1/plant"
      (RequestOutcome.response ⟨304, "", some (JsonVal.obj [])⟩) =
      Except.ok (JsonVal.obj []) := rfl

/-- Claim C9, amended: every transport/auth failure of `_request` — HTTP
status 400 or above (not every non-2xx status), timeout, client error,
malformed (non-JSON) response body, or an API-embedded error code in a
JSON-object body — is raised as the single distinguished error type
`SolArkCloudAPIError` whose message contains the endpoint, never silently
swallowed. -/
theorem c9_failures_raise_with_endpoint
    (endpoint : String) (o : RequestOutcome)
    (h : isRequestFailure o = true) :
    ∃ e : SolArkCloudAPIError, request_result endpoint o = Except.error e ∧
      ∃ a b, e.message = a ++ endpoint ++ b := by
  cases o with
  | timeout =>
    exact ⟨⟨"Timeout for " ++ endpoint⟩, rfl, "Timeout for ", "", by simp⟩
  | clientError m =>
    exact ⟨⟨"Client error for " ++ endpoint ++ ": " ++ m⟩, rfl,
      "Client error for ", ": " ++ m, by simp [String.append_assoc]⟩
  | response r =>
    by_cases hs : 400 ≤ r.status
    · refine ⟨⟨"HTTP " ++ toString r.status ++ " for " ++ endpoint ++ ": " ++
        r.bodyText.take 500⟩, ?_, "HTTP " ++ toString r.status ++ " for ",
        ": " ++ r.bodyText.take 500, ?_⟩
      · simp [request_result, hs]
      · simp [String.append_assoc]
    · cases hj : r.json with
      | none =>
        refine ⟨⟨"Invalid JSON response from " ++ endpoint ++ ": " ++
          r.bodyText.take 200⟩, ?_, "Invalid JSON response from ",
          ": " ++ r.bodyText.take 200, ?_⟩
        · simp [request_result, hs, hj]
        · simp [String.append_assoc]
      | some j =>
        have hbad : jsonCodeOk j = false := by
          simp [isRequestFailure, hs, hj] at h
          exact h
        cases j with
        | null => simp [jsonCodeOk] at hbad
        | bool b => simp [jsonCodeOk] at hbad
        | num q => simp [jsonCodeOk] at hbad
        | str s => simp [jsonCodeOk] at hbad
        | arr items => simp [jsonCodeOk] at hbad
        | obj kvs =>
          have hcode : codeOk (dictGet kvs "code") = false := by
            simpa [jsonCodeOk] using hbad
          refine ⟨⟨"API error for " ++ endpoint ++ ": " ++
            renderVal (dictGetD kvs "msg" (JsonVal.str "Unknown error")) ++
            " (code=" ++ renderVal (dictGetD kvs "code" JsonVal.null) ++ ")"⟩,
            ?_, "API error for ",
            ": " ++ renderVal (dictGetD kvs "msg" (JsonVal.str "Unknown error")) ++
            " (code=" ++ renderVal (dictGetD kvs "code" JsonVal.null) ++ ")", ?_⟩
          · simp [request_result, hs, hj, hcode]
          · simp [String.append_assoc]

/-- Claim C9, witness: a timeout on the token endpoint is classified as a
failure and is raised with the endpoint in the message. -/
theorem c9_witness :
    isRequestFailure RequestOutcome.timeout = true ∧
    ∃ e : SolArkCloudAPIError,
      request_result "/oauth/token" RequestOutcome.timeout =
        Except.error e ∧
      ∃ a b, e.message = a ++ "/oauth/token" ++ b :=
  ⟨rfl, c9_failures_raise_with_endpoint "/oauth/token" RequestOutcome.timeout rfl⟩

/-- Claim C10: closed-form behaviour of `parse_plant_data` on a mapping —
it emits, in program order, one numeric entry per recognized field for the
longest prefix of the seven fields whose coercion succeeds (an absent field
coerces from the default 0, so it yields 0.0), and appends the `last_error`
passthrough (defaulting to the string "None") exactly when all seven
coercions succeed.  In particular, when every present field is coercible
the result has exactly the eight canonical keys, and when some field's
coercion raises, the result holds exactly the keys assigned before the
failing one and no exception escapes. -/
theorem c10_parse_plant_data_closed_form (kvs : List (String × JsonVal)) :
    parse_plant_data (JsonVal.obj kvs) =
      (FIELD_MAP.takeWhile (fun p => (coerceField kvs p.2).isSome)).map
        (fun p => (p.1, SensorValue.num ((coerceField kvs p.2).getD 0)))
      ++ (if FIELD_MAP.all (fun p => (coerceField kvs p.2).isSome)
          then [lastErrorEntry kvs] else []) :=
  assignFields_eq kvs FIELD_MAP

end SolArk
